import Mathlib

/-!
Shallow embedding of src/dp_config.py: a generic retry decorator
(retry_on_exception), a plugin provisioner (check_and_download_plugin,
download_plugin), a browser session facade (GuaPage click/input methods)
and a launch configurator (set_driver).  Machine reals (Python floats)
are modelled as rationals; raised exceptions as error values; the
filesystem, network replies and user consent as explicit parameters;
side effects (network requests, consent prompts) as event traces.
-/

namespace DpConfig

/-- Parameters of the retry decorator, mirroring
retry_on_exception(retries=3, delay=2, backoff=1, jitter=0.1). -/
structure RetryParams where
  retries : Nat
  delay : ℚ
  backoff : ℚ
  jitter : ℚ
deriving Repr, DecidableEq

/-- Sleep computed at lines 139-142 before a retry: sleep_time =
delay * backoff ** attempt, and if jitter is truthy (nonzero) a uniform
draw r from [0, jitter * sleep_time] is added. -/
def sleepTime (delay backoff jitter : ℚ) (attempt : Nat) (r : ℚ) : ℚ :=
  let s := delay * backoff ^ attempt
  if jitter = 0 then s else s + r

/-- Upper endpoint of the uniform draw at line 142:
random.uniform(0, jitter * sleep_time). -/
def jitterBound (delay backoff jitter : ℚ) (attempt : Nat) : ℚ :=
  jitter * (delay * backoff ^ attempt)

/-- Final outcome of the wrapper: value returned, last captured exception
re-raised at line 149, or the RuntimeError at line 151 when no attempt
ran (retries = 0 so last_exception is None). -/
inductive RetryOutcome (ε α : Type) where
  | ok (a : α)
  | exhausted (e : ε)
  | noCapture
deriving Repr, DecidableEq

/-- Loop body of wrapper (lines 132-147): fuel counts the remaining
iterations of the for loop, attempt the current 0-based index.  Returns
the number of invocations of func, the list of sleeps performed, and the
outcome; draw k models the uniform jitter sample before the retry that
follows attempt k. -/
def retryLoop {ε α : Type} (p : RetryParams) (op : Nat → Except ε α)
    (draw : Nat → ℚ) (attempt : Nat) : Nat → Nat × List ℚ × RetryOutcome ε α
  | 0 => (0, [], .noCapture)
  | 1 =>
    match op attempt with
    | .ok a => (1, [], .ok a)
    | .error e => (1, [], .exhausted e)
  | fuel + 2 =>
    match op attempt with
    | .ok a => (1, [], .ok a)
    | .error _ =>
      let rest := retryLoop p op draw (attempt + 1) (fuel + 1)
      (rest.1 + 1,
       sleepTime p.delay p.backoff p.jitter attempt (draw attempt) :: rest.2.1,
       rest.2.2)

/-- wrapper(*args): run op for attempt in range(retries), sleeping between
failed attempts, re-raising the last exception on exhaustion. -/
def retry_on_exception {ε α : Type} (p : RetryParams) (op : Nat → Except ε α)
    (draw : Nat → ℚ) : Nat × List ℚ × RetryOutcome ε α :=
  retryLoop p op draw 0 p.retries

/-- Side effects of the provisioner visible outside the process: an HTTP
request for a plugin, or a consent prompt on stdin for a plugin. -/
inductive Effect where
  | net (name : String)
  | prompt (name : String)
deriving Repr, DecidableEq

/-- Plugin whose effect an event concerns. -/
def Effect.tag : Effect → String
  | .net n => n
  | .prompt n => n

/-- PLUGIN_URLS dict (lines 17-21). -/
def PLUGIN_URLS : List (String × String) :=
  [("cloudflare_ua_patch",
    "https://github.com/gua12345/DrissionPage_Base_Code/releases/download/v1/cloudflare_ua_patch.zip"),
   ("my-fingerprint-chrome",
    "https://github.com/gua12345/DrissionPage_Base_Code/releases/download/v1/my-fingerprint-chrome-v2.5.1.zip"),
   ("turnstilePatch",
    "https://github.com/gua12345/DrissionPage_Base_Code/releases/download/v1/turnstilePatch.zip")]

/-- Where the HTTP download of download_plugin can fail: errEarly models
requests.get / raise_for_status raising before the zip file is opened,
errMid a RequestException while streaming chunks after the zip file was
created, ok a complete download. -/
inductive NetRes where
  | errEarly
  | errMid
  | ok
deriving Repr, DecidableEq

/-- Environment one download_plugin call runs against: the network result,
whether the saved archive is a valid zip, and whether extracting it
creates the plugin directory. -/
structure DlEnv where
  net : NetRes
  zipGood : Bool
  createsDir : Bool
deriving Repr, DecidableEq

/-- os.remove: drop a path from the filesystem. -/
def fsRemove (fs : List String) (path : String) : List String :=
  fs.filter (fun x => x != path)

/-- download_plugin (lines 58-109) over an explicit filesystem (list of
existing paths, relative to the cwd).  Returns the bool result, the
filesystem afterwards, and the emitted effects.  KeyError on a name
missing from PLUGIN_URLS is caught by the final except and yields False;
a BadZipFile is raised before os.remove, so the zip file stays. -/
def download_plugin (name : String) (fs : List String) (env : DlEnv) :
    Bool × List String × List Effect :=
  match (PLUGIN_URLS.lookup name) with
  | none => (false, fs, [])
  | some _ =>
    match env.net with
    | .errEarly => (false, fs, [.net name])
    | .errMid => (false, fs ++ [name ++ ".zip"], [.net name])
    | .ok =>
      let fs1 := fs ++ [name ++ ".zip"]
      if env.zipGood then
        let fs2 := if env.createsDir then fs1 ++ [name] else fs1
        let fs3 := fsRemove fs2 (name ++ ".zip")
        (decide (name ∈ fs3), fs3, [.net name])
      else
        (false, fs1, [.net name])

/-- check_and_download_plugin (lines 23-56): succeed at once when the
plugin directory exists; fail when no URL is configured; otherwise prompt
for consent (the consent flag is the first valid y/n answer; invalid
answers only repeat the prompt) and download when granted. -/
def check_and_download_plugin (name : String) (fs : List String)
    (consent : Bool) (env : DlEnv) : Bool × List String × List Effect :=
  if name ∈ fs then (true, fs, [])
  else if (PLUGIN_URLS.lookup name).isNone then (false, fs, [])
  else if consent then
    let r := download_plugin name fs env
    (r.1, r.2.1, .prompt name :: r.2.2)
  else (false, fs, [.prompt name])

/-- Oracle for the underlying DrissionPage driver: element lookup
(self.ele) and the primitive actions, each of which may raise. -/
structure Driver (E ε : Type) where
  ele : String → Except ε E
  clickRes : E → Except ε Unit
  clearRes : E → Except ε Unit
  inputRes : E → String → Except ε Unit
  actClickRes : E → Except ε Unit
  actInputRes : String → Except ε Unit

/-- Driver events one attempt of a facade method performs. -/
inductive DrEv (E : Type) where
  | lookup (selector : String)
  | click (e : E)
  | clear (e : E)
  | inputTo (e : E) (text : String)
  | aclick (e : E)
  | ainput (text : String)
deriving Repr, DecidableEq

/-- One attempt of click_with_retry (lines 162-183): when no element is
supplied, look it up by selector and click it; otherwise click the
supplied element; return True. -/
def click_body {E ε : Type} (d : Driver E ε) (selector : String)
    (element : Option E) : Except ε Bool × List (DrEv E) :=
  match element with
  | none =>
    match d.ele selector with
    | .error e => (.error e, [.lookup selector])
    | .ok el =>
      match d.clickRes el with
      | .error e => (.error e, [.lookup selector, .click el])
      | .ok _ => (.ok true, [.lookup selector, .click el])
  | some el =>
    match d.clickRes el with
    | .error e => (.error e, [.click el])
    | .ok _ => (.ok true, [.click el])

/-- One attempt of input_with_retry (lines 186-210): resolve the element
if needed, clear it, input the text, return True. -/
def input_body {E ε : Type} (d : Driver E ε) (selector text : String)
    (element : Option E) : Except ε Bool × List (DrEv E) :=
  match element with
  | none =>
    match d.ele selector with
    | .error e => (.error e, [.lookup selector])
    | .ok el =>
      match d.clearRes el with
      | .error e => (.error e, [.lookup selector, .clear el])
      | .ok _ =>
        match d.inputRes el text with
        | .error e => (.error e, [.lookup selector, .clear el, .inputTo el text])
        | .ok _ => (.ok true, [.lookup selector, .clear el, .inputTo el text])
  | some el =>
    match d.clearRes el with
    | .error e => (.error e, [.clear el])
    | .ok _ =>
      match d.inputRes el text with
      | .error e => (.error e, [.clear el, .inputTo el text])
      | .ok _ => (.ok true, [.clear el, .inputTo el text])

/-- One attempt of actions_input_with_retry (lines 213-237): resolve the
element if needed, actions.click it, actions.input the text, return
True. -/
def actions_input_body {E ε : Type} (d : Driver E ε) (selector text : String)
    (element : Option E) : Except ε Bool × List (DrEv E) :=
  match element with
  | none =>
    match d.ele selector with
    | .error e => (.error e, [.lookup selector])
    | .ok el =>
      match d.actClickRes el with
      | .error e => (.error e, [.lookup selector, .aclick el])
      | .ok _ =>
        match d.actInputRes text with
        | .error e => (.error e, [.lookup selector, .aclick el, .ainput text])
        | .ok _ => (.ok true, [.lookup selector, .aclick el, .ainput text])
  | some el =>
    match d.actClickRes el with
    | .error e => (.error e, [.aclick el])
    | .ok _ =>
      match d.actInputRes text with
      | .error e => (.error e, [.aclick el, .ainput text])
      | .ok _ => (.ok true, [.aclick el, .ainput text])

/-- One attempt of actions_click_with_retry (lines 240-261): resolve the
element if needed and actions.click it, return True. -/
def actions_click_body {E ε : Type} (d : Driver E ε) (selector : String)
    (element : Option E) : Except ε Bool × List (DrEv E) :=
  match element with
  | none =>
    match d.ele selector with
    | .error e => (.error e, [.lookup selector])
    | .ok el =>
      match d.actClickRes el with
      | .error e => (.error e, [.lookup selector, .aclick el])
      | .ok _ => (.ok true, [.lookup selector, .aclick el])
  | some el =>
    match d.actClickRes el with
    | .error e => (.error e, [.aclick el])
    | .ok _ => (.ok true, [.aclick el])

/-- retry_on_exception(retries=n, delay=3) with the default backoff=1 and
jitter=0.1 used by the facade methods. -/
def facadeParams (n : Nat) : RetryParams := ⟨n, 3, 1, 1 / 10⟩

/-- click_with_retry: the click attempt wrapped with retries=3, delay=3. -/
def click_with_retry {E ε : Type} (d : Driver E ε) (draw : Nat → ℚ)
    (selector : String) (element : Option E) :
    Nat × List ℚ × RetryOutcome ε Bool :=
  retry_on_exception (facadeParams 3)
    (fun _ => (click_body d selector element).1) draw

/-- input_with_retry: the input attempt wrapped with retries=3, delay=3. -/
def input_with_retry {E ε : Type} (d : Driver E ε) (draw : Nat → ℚ)
    (selector text : String) (element : Option E) :
    Nat × List ℚ × RetryOutcome ε Bool :=
  retry_on_exception (facadeParams 3)
    (fun _ => (input_body d selector text element).1) draw

/-- actions_input_with_retry: the attempt wrapped with retries=5, delay=3. -/
def actions_input_with_retry {E ε : Type} (d : Driver E ε) (draw : Nat → ℚ)
    (selector text : String) (element : Option E) :
    Nat × List ℚ × RetryOutcome ε Bool :=
  retry_on_exception (facadeParams 5)
    (fun _ => (actions_input_body d selector text element).1) draw

/-- actions_click_with_retry: the attempt wrapped with retries=5, delay=3. -/
def actions_click_with_retry {E ε : Type} (d : Driver E ε) (draw : Nat → ℚ)
    (selector : String) (element : Option E) :
    Nat × List ℚ × RetryOutcome ε Bool :=
  retry_on_exception (facadeParams 5)
    (fun _ => (actions_click_body d selector element).1) draw

/-- Value of a Chromium preference (set_pref takes strings or bools). -/
inductive PrefV where
  | str (s : String)
  | bool (b : Bool)
deriving Repr, DecidableEq

/-- ChromiumOptions as set_driver builds them: executable path, command
line arguments, preferences, proxy, headless flag, the user agent passed
to set_user_agent (none would mean the builtin default is kept), whether
new_env was called, and the extension directories added. -/
structure ChromiumOpts where
  browserPath : String
  arguments : List String
  prefs : List (String × PrefV)
  proxy : Option String
  headlessMode : Bool
  userAgent : Option String
  newEnv : Bool
  extensions : List String
deriving Repr, DecidableEq

/-- windows_paths candidate list (lines 268-272). -/
def windows_paths : List String :=
  ["C:\\Program Files\\Google\\Chrome\\Application\\chrome.exe",
   "C:\\Program Files (x86)\\Google\\Chrome\\Application\\chrome.exe",
   "C:\\Program Files\\Microsoft\\Edge\\Application\\msedge.exe"]

/-- linux_paths candidate list (lines 274-282). -/
def linux_paths : List String :=
  ["/usr/bin/google-chrome",
   "/usr/bin/chromium",
   "/usr/bin/chromium-browser",
   "/usr/bin/microsoft-edge",
   "/snap/bin/chromium",
   "/usr/lib/chromium/chromium",
   "/usr/lib/chromium-browser/chromium-browser"]

/-- The hardcoded user agent of line 331. -/
def defaultUA : String :=
  "Mozilla/5.0 (X11; Linux x86_64) AppleWebKit/537.36 (KHTML, like Gecko) Chrome/131.0.0.0 Safari/537.36"

/-- Host environment set_driver runs against: the platform, whether the
process is elevated, the filesystem, and per plugin the consent answer
and the download environment. -/
structure SysEnv where
  isWindows : Bool
  isAdmin : Bool
  fs : List String
  consent : String → Bool
  dl : String → DlEnv

/-- Lines 285-294: take the caller override when truthy (nonempty),
otherwise the first existing candidate path; none means the
FileNotFoundError is raised. -/
def resolveBrowserPath (env : SysEnv) (browser_path : String) : Option String :=
  if browser_path ≠ "" then some browser_path
  else (if env.isWindows then windows_paths else linux_paths).find?
    (fun p => env.fs.contains p)

/-- One flag-guarded plugin block of lines 336-352 acting on the state
(extensions so far, filesystem, effects so far): when the flag is set,
run the provisioner and add the extension only if it reports success. -/
def loadPlugin (env : SysEnv) (flag : Bool) (name : String)
    (st : List String × List String × List Effect) :
    List String × List String × List Effect :=
  if flag then
    let r := check_and_download_plugin name st.2.1 (env.consent name) (env.dl name)
    ((if r.1 then st.1 ++ [name] else st.1), r.2.1, st.2.2 ++ r.2.2)
  else st

/-- set_driver (lines 263-359): resolve the browser path (raising
FileNotFoundError when none is found), build the launch options, run the
three flag-guarded plugin blocks, add gpt_rf when that directory exists,
and construct the driver.  Returns the options the driver is launched
with, the final filesystem and the effect trace; error means the
exception propagated and no driver was constructed. -/
def set_driver (env : SysEnv) (headless : Bool)
    (browser_path user_agent proxy : String)
    (cf_bypass random_fingerprint ua_patch : Bool) :
    Except String (ChromiumOpts × List String × List Effect) :=
  match resolveBrowserPath env browser_path with
  | none => .error "FileNotFoundError"
  | some bp =>
    let adminArgs :=
      if env.isAdmin then
        ["--no-sandbox", "--disable-dev-shm-usage"] ++
          (if env.isWindows then []
           else ["--disable-gpu", "--disable-software-rasterizer"])
      else []
    let args := adminArgs ++
      ["--hide-crash-restore-bubble", "--lang=en-US", "--accept-languages=en-US,en"]
    let prefs := [("profile.default_content_settings.popups", PrefV.str "0"),
                  ("credentials_enable_service", PrefV.bool false)]
    let ua := if user_agent ≠ "" then user_agent else defaultUA
    let st1 := loadPlugin env cf_bypass "turnstilePatch" ([], env.fs, [])
    let st2 := loadPlugin env random_fingerprint "my-fingerprint-chrome" st1
    let st3 := loadPlugin env ua_patch "cloudflare_ua_patch" st2
    let exts := if "gpt_rf" ∈ st3.2.1 then st3.1 ++ ["gpt_rf"] else st3.1
    .ok (⟨bp, args, prefs,
          (if proxy ≠ "" then some proxy else none),
          headless, some ua, true, exts⟩,
         st3.2.1, st3.2.2)

/-- A Linux host with one browser installed, a user who declines every
download, and a network that always fails early. -/
def sampleEnv : SysEnv :=
  ⟨false, false, ["/usr/bin/google-chrome"], fun _ => false,
   fun _ => ⟨NetRes.errEarly, false, false⟩⟩

/-- Like sampleEnv but with a gpt_rf directory present in the cwd. -/
def sampleEnvG : SysEnv :=
  ⟨false, false, ["/usr/bin/google-chrome", "gpt_rf"], fun _ => false,
   fun _ => ⟨NetRes.errEarly, false, false⟩⟩

/-- A driver whose every operation raises. -/
def sampleDriver : Driver Nat String :=
  ⟨fun _ => Except.error "no element",
   fun _ => Except.error "click failed",
   fun _ => Except.error "clear failed",
   fun _ _ => Except.error "input failed",
   fun _ => Except.error "actions click failed",
   fun _ => Except.error "actions input failed"⟩

/-! ## Supporting lemmas about the retry loop -/

/-- Unfolding: no fuel means the loop never ran. -/
theorem retryLoop_zero {ε α : Type} (p : RetryParams) (op : Nat → Except ε α)
    (draw : Nat → ℚ) (attempt : Nat) :
    retryLoop p op draw attempt 0 = (0, [], RetryOutcome.noCapture) := rfl

/-- Unfolding: last iteration, no sleep afterwards. -/
theorem retryLoop_one_err {ε α : Type} (p : RetryParams) (op : Nat → Except ε α)
    (draw : Nat → ℚ) (attempt : Nat) (e : ε) (hop : op attempt = Except.error e) :
    retryLoop p op draw attempt 1 = (1, [], RetryOutcome.exhausted e) := by
  simp [retryLoop, hop]

/-- Unfolding: successful attempt stops the loop. -/
theorem retryLoop_ok_stop {ε α : Type} (p : RetryParams) (op : Nat → Except ε α)
    (draw : Nat → ℚ) (attempt fuel : Nat) (a : α) (hop : op attempt = Except.ok a) :
    retryLoop p op draw attempt (fuel + 1) = (1, [], RetryOutcome.ok a) := by
  cases fuel <;> simp [retryLoop, hop]

/-- Unfolding: failed attempt with at least one retry left sleeps and
recurses. -/
theorem retryLoop_two_err {ε α : Type} (p : RetryParams) (op : Nat → Except ε α)
    (draw : Nat → ℚ) (attempt fuel : Nat) (e : ε) (hop : op attempt = Except.error e) :
    retryLoop p op draw attempt (fuel + 2) =
      ((retryLoop p op draw (attempt + 1) (fuel + 1)).1 + 1,
       sleepTime p.delay p.backoff p.jitter attempt (draw attempt) ::
         (retryLoop p op draw (attempt + 1) (fuel + 1)).2.1,
       (retryLoop p op draw (attempt + 1) (fuel + 1)).2.2) := by
  simp [retryLoop, hop]

/-- When every attempt fails, the loop runs its full fuel and ends
exhausted with the error of the last attempt. -/
theorem retryLoop_fail_all {ε α : Type} (p : RetryParams) (op : Nat → Except ε α)
    (draw : Nat → ℚ) (errOf : Nat → ε)
    (hfail : ∀ k, op k = Except.error (errOf k)) (fuel : Nat) :
    ∀ attempt, 1 ≤ fuel →
      (retryLoop p op draw attempt fuel).1 = fuel ∧
      (retryLoop p op draw attempt fuel).2.2 =
        RetryOutcome.exhausted (errOf (attempt + fuel - 1)) := by
  induction fuel with
  | zero => intro _ h; omega
  | succ f ih =>
    intro attempt _
    cases f with
    | zero => simp [retryLoop_one_err p op draw attempt _ (hfail attempt)]
    | succ f' =>
      have h := ih (attempt + 1) (by omega)
      rw [retryLoop_two_err p op draw attempt f' _ (hfail attempt)]
      refine ⟨?_, ?_⟩
      · dsimp only
        rw [h.1]
      · dsimp only
        rw [h.2]
        have hi : attempt + 1 + (f' + 1) - 1 = attempt + (f' + 1 + 1) - 1 := by omega
        rw [hi]

/-- A success outcome of the loop comes from some invocation of op. -/
theorem retryLoop_ok_imp {ε α : Type} (p : RetryParams) (op : Nat → Except ε α)
    (draw : Nat → ℚ) (fuel : Nat) :
    ∀ attempt a, (retryLoop p op draw attempt fuel).2.2 = RetryOutcome.ok a →
      ∃ k, op k = Except.ok a := by
  induction fuel with
  | zero => intro attempt a h; rw [retryLoop_zero] at h; simp at h
  | succ f ih =>
    intro attempt a h
    cases hop : op attempt with
    | ok b =>
      rw [retryLoop_ok_stop p op draw attempt f b hop] at h
      simp at h
      exact ⟨attempt, by rw [hop, h]⟩
    | error e =>
      cases f with
      | zero =>
        rw [retryLoop_one_err p op draw attempt e hop] at h
        simp at h
      | succ f' =>
        rw [retryLoop_two_err p op draw attempt f' e hop] at h
        exact ih (attempt + 1) a h

/-- A wrapper around a constant failing operation exhausts all retries
and re-raises that failure. -/
theorem retry_const_error {ε α : Type} (p : RetryParams) (x : Except ε α)
    (e : ε) (draw : Nat → ℚ) (hp : 1 ≤ p.retries) (hx : x = Except.error e) :
    (retry_on_exception p (fun _ => x) draw).2.2 = RetryOutcome.exhausted e ∧
    (retry_on_exception p (fun _ => x) draw).1 = p.retries := by
  have h := retryLoop_fail_all p (fun _ => x) draw (fun _ => e)
    (fun _ => hx) p.retries 0 hp
  exact ⟨h.2, h.1⟩

/-- A success of the wrapper comes from some invocation of op. -/
theorem retry_ok_imp {ε α : Type} (p : RetryParams) (op : Nat → Except ε α)
    (draw : Nat → ℚ) (a : α)
    (h : (retry_on_exception p op draw).2.2 = RetryOutcome.ok a) :
    ∃ k, op k = Except.ok a :=
  retryLoop_ok_imp p op draw p.retries 0 a h

/-- Every normal return of a click attempt carries True. -/
theorem click_body_ok {E ε : Type} (d : Driver E ε) (sel : String)
    (elOpt : Option E) (b : Bool)
    (h : (click_body d sel elOpt).1 = Except.ok b) : b = true := by
  rcases elOpt with _ | el
  · rcases he : d.ele sel with e | el2
    · simp [click_body, he] at h
    · rcases hc : d.clickRes el2 with e | u <;> simp_all [click_body, he, hc]
  · rcases hc : d.clickRes el with e | u <;> simp_all [click_body, hc]

/-- Every normal return of an input attempt carries True. -/
theorem input_body_ok {E ε : Type} (d : Driver E ε) (sel txt : String)
    (elOpt : Option E) (b : Bool)
    (h : (input_body d sel txt elOpt).1 = Except.ok b) : b = true := by
  rcases elOpt with _ | el
  · rcases he : d.ele sel with e | el2
    · simp [input_body, he] at h
    · rcases hc : d.clearRes el2 with e | u
      · simp [input_body, he, hc] at h
      · rcases hi : d.inputRes el2 txt with e | u2 <;>
          simp_all [input_body, he, hc, hi]
  · rcases hc : d.clearRes el with e | u
    · simp [input_body, hc] at h
    · rcases hi : d.inputRes el txt with e | u2 <;> simp_all [input_body, hc, hi]

/-- Every normal return of an actions-input attempt carries True. -/
theorem actions_input_body_ok {E ε : Type} (d : Driver E ε) (sel txt : String)
    (elOpt : Option E) (b : Bool)
    (h : (actions_input_body d sel txt elOpt).1 = Except.ok b) : b = true := by
  rcases elOpt with _ | el
  · rcases he : d.ele sel with e | el2
    · simp [actions_input_body, he] at h
    · rcases hc : d.actClickRes el2 with e | u
      · simp [actions_input_body, he, hc] at h
      · rcases hi : d.actInputRes txt with e | u2 <;>
          simp_all [actions_input_body, he, hc, hi]
  · rcases hc : d.actClickRes el with e | u
    · simp [actions_input_body, hc] at h
    · rcases hi : d.actInputRes txt with e | u2 <;>
        simp_all [actions_input_body, hc, hi]

/-- Every normal return of an actions-click attempt carries True. -/
theorem actions_click_body_ok {E ε : Type} (d : Driver E ε) (sel : String)
    (elOpt : Option E) (b : Bool)
    (h : (actions_click_body d sel elOpt).1 = Except.ok b) : b = true := by
  rcases elOpt with _ | el
  · rcases he : d.ele sel with e | el2
    · simp [actions_click_body, he] at h
    · rcases hc : d.actClickRes el2 with e | u <;>
        simp_all [actions_click_body, he, hc]
  · rcases hc : d.actClickRes el with e | u <;> simp_all [actions_click_body, hc]

/-! ## C1 - C3: the retry wrapper -/

/-- C1: for every attempt budget N at least 1 and an operation failing on
every invocation, the wrapper invokes the operation exactly N times and
re-raises the exception of the N-th invocation. -/
theorem retry_exhausts_all_attempts {ε α : Type} (p : RetryParams)
    (op : Nat → Except ε α) (draw : Nat → ℚ) (errOf : Nat → ε)
    (hN : 1 ≤ p.retries) (hfail : ∀ k, op k = Except.error (errOf k)) :
    (retry_on_exception p op draw).1 = p.retries ∧
    (retry_on_exception p op draw).2.2 =
      RetryOutcome.exhausted (errOf (p.retries - 1)) := by
  have h := retryLoop_fail_all p op draw errOf hfail p.retries 0 hN
  rw [retry_on_exception]
  simpa using h

/-- Witness for C1 at N = 2 with a constantly failing operation. -/
theorem retry_exhausts_all_attempts_witness :
    (retry_on_exception ⟨2, 2, 1, 1 / 10⟩
        (fun _ => (Except.error "boom" : Except String Unit)) (fun _ => 0)).1 = 2 ∧
    (retry_on_exception ⟨2, 2, 1, 1 / 10⟩
        (fun _ => (Except.error "boom" : Except String Unit)) (fun _ => 0)).2.2 =
      RetryOutcome.exhausted "boom" :=
  retry_exhausts_all_attempts ⟨2, 2, 1, 1 / 10⟩ _ _ (fun _ => "boom")
    (by decide) (fun _ => rfl)

/-- C2: for positive delay and backoff and nonnegative jitter, the sleep
before the retry that follows failed attempt k lies in the closed
interval from delay * backoff ^ k to delay * backoff ^ k * (1 + jitter),
for every admissible value of the uniform draw. -/
theorem retry_sleep_within_bounds (d b j r : ℚ) (k : Nat)
    (hd : 0 < d) (hb : 0 < b) (hj : 0 ≤ j)
    (hr0 : 0 ≤ r) (hr1 : r ≤ jitterBound d b j k) :
    d * b ^ k ≤ sleepTime d b j k r ∧
    sleepTime d b j k r ≤ d * b ^ k * (1 + j) := by
  have hs : (0 : ℚ) < d * b ^ k := by positivity
  rw [jitterBound] at hr1
  by_cases hz : j = 0
  · constructor <;> simp [sleepTime, hz]
  · constructor <;> simp [sleepTime, hz] <;> nlinarith

/-- Witness for C2 at delay 1, backoff 2, jitter one half, attempt 1,
draw one quarter. -/
theorem retry_sleep_within_bounds_witness :
    (1 : ℚ) * 2 ^ 1 ≤ sleepTime 1 2 (1 / 2) 1 (1 / 4) ∧
    sleepTime 1 2 (1 / 2) 1 (1 / 4) ≤ 1 * 2 ^ 1 * (1 + 1 / 2) :=
  retry_sleep_within_bounds 1 2 (1 / 2) (1 / 4) 1 (by norm_num) (by norm_num)
    (by norm_num) (by norm_num) (by norm_num [jitterBound])

/-- C3 as stated is false: with delay 2, backoff 2, jitter 1 and failed
attempt 1, the code draws the jitter from [0, jitter * delay * backoff ^ 1]
= [0, 4]; the admissible draw 4 makes the wait 8, above
delay * backoff ^ 1 + jitter * delay = 6, so the jitter magnitude is not
bounded by jitter * delay. -/
theorem retry_jitter_claim_counterexample :
    (0 : ℚ) ≤ 4 ∧ (4 : ℚ) ≤ jitterBound 2 2 1 1 ∧
    sleepTime 2 2 1 1 4 = 8 ∧
    ¬ sleepTime 2 2 1 1 4 ≤ 2 * 2 ^ 1 + 1 * 2 := by
  norm_num [sleepTime, jitterBound]

/-- C3 amended: the wait before the retry after failed attempt k equals
delay * backoff ^ k plus the jitter draw when jitter is nonzero (and has
no jitter term when jitter is zero), and the draw is taken uniformly from
[0, jitter * delay * backoff ^ k]: its magnitude scales with the
backoff-grown delay of attempt k rather than being bounded by
jitter * delay. -/
theorem retry_jitter_scales_with_attempt (d b j r : ℚ) (k : Nat) :
    jitterBound d b j k = j * (d * b ^ k) ∧
    (j ≠ 0 → sleepTime d b j k r = d * b ^ k + r) ∧
    (j = 0 → sleepTime d b j k r = d * b ^ k) := by
  refine ⟨rfl, ?_, ?_⟩ <;> intro h <;> simp [sleepTime, h]

/-- Witness for the amended C3 at delay 2, backoff 2, jitter 1, attempt 1,
draw 4. -/
theorem retry_jitter_scales_with_attempt_witness :
    jitterBound 2 2 1 1 = 1 * (2 * 2 ^ 1) ∧
    sleepTime 2 2 1 1 4 = 2 * 2 ^ 1 + 4 :=
  ⟨(retry_jitter_scales_with_attempt 2 2 1 4 1).1,
   (retry_jitter_scales_with_attempt 2 2 1 4 1).2.1 (by norm_num)⟩

/-! ## C4 - C5: the plugin provisioner -/

/-- C4: when the plugin directory already exists, the provisioner returns
True with the filesystem untouched and an empty effect trace: no network
request and no consent prompt. -/
theorem plugin_exists_no_network (name : String) (fs : List String)
    (consent : Bool) (env : DlEnv) (h : name ∈ fs) :
    check_and_download_plugin name fs consent env = (true, fs, []) := by
  simp [check_and_download_plugin, h]

/-- Witness for C4 with the turnstilePatch directory present. -/
theorem plugin_exists_no_network_witness :
    check_and_download_plugin "turnstilePatch" ["turnstilePatch"] false
        ⟨NetRes.errEarly, false, false⟩ =
      (true, ["turnstilePatch"], []) :=
  plugin_exists_no_network "turnstilePatch" ["turnstilePatch"] false
    ⟨NetRes.errEarly, false, false⟩ (by decide)

/-- C5 as stated is false: on a corrupt archive download_plugin returns
False, but the zip file was written before extraction raised and
os.remove is never reached, so turnstilePatch.zip stays on the
filesystem. -/
theorem download_failure_leaves_zip_artifact :
    download_plugin "turnstilePatch" [] ⟨NetRes.ok, false, false⟩ =
      (false, ["turnstilePatch.zip"], [Effect.net "turnstilePatch"]) ∧
    "turnstilePatch.zip" ∈
      (download_plugin "turnstilePatch" [] ⟨NetRes.ok, false, false⟩).2.1 := by
  constructor <;> decide

/-- C5 amended: download_plugin returns False on a network error, a bad
archive, and a missing post-extraction directory; no zip file is left
when the network fails before the archive is written or when extraction
succeeds, but on a bad archive (and on a mid-download network failure)
the zip file remains. -/
theorem download_plugin_failure_modes (name : String) (fs : List String)
    (env : DlEnv) (hurl : (PLUGIN_URLS.lookup name).isSome) :
    (env.net = NetRes.errEarly →
       download_plugin name fs env = (false, fs, [Effect.net name])) ∧
    (env.net = NetRes.errMid →
       download_plugin name fs env =
         (false, fs ++ [name ++ ".zip"], [Effect.net name])) ∧
    (env.net = NetRes.ok → env.zipGood = false →
       download_plugin name fs env =
         (false, fs ++ [name ++ ".zip"], [Effect.net name])) ∧
    (env.net = NetRes.ok → env.zipGood = true → env.createsDir = false →
       name ∉ fs →
       (download_plugin name fs env).1 = false ∧
       (name ++ ".zip") ∉ (download_plugin name fs env).2.1) := by
  obtain ⟨url, hu⟩ := Option.isSome_iff_exists.mp hurl
  obtain ⟨net, zg, cd⟩ := env
  refine ⟨?_, ?_, ?_, ?_⟩
  · intro hnet
    cases hnet
    simp [download_plugin, hu]
  · intro hnet
    cases hnet
    simp [download_plugin, hu]
  · intro hnet hzg
    cases hnet
    cases hzg
    simp [download_plugin, hu]
  · intro hnet hzg hcd hmem
    cases hnet
    cases hzg
    cases hcd
    have hnm : name ∉ fsRemove (fs ++ [name ++ ".zip"]) (name ++ ".zip") := by
      intro hc
      rcases List.mem_filter.mp hc with ⟨hc1, hbne⟩
      rcases List.mem_append.mp hc1 with hc2 | hc2
      · exact hmem hc2
      · exact absurd (List.mem_singleton.mp hc2) (by simpa using hbne)
    have hzm : (name ++ ".zip") ∉ fsRemove (fs ++ [name ++ ".zip"]) (name ++ ".zip") := by
      intro hc
      rcases List.mem_filter.mp hc with ⟨_, hc2⟩
      simp at hc2
    constructor
    · simp [download_plugin, hu, fsRemove] at hnm ⊢
      exact hnm
    · simp only [download_plugin, hu]
      simpa using hzm

/-- Witness for the amended C5: an early network failure returns False
and leaves the filesystem unchanged. -/
theorem download_plugin_failure_modes_witness :
    download_plugin "turnstilePatch" [] ⟨NetRes.errEarly, false, false⟩ =
      (false, [], [Effect.net "turnstilePatch"]) :=
  (download_plugin_failure_modes "turnstilePatch" []
    ⟨NetRes.errEarly, false, false⟩ (by decide)).1 rfl

/-! ## Supporting lemmas about the provisioner state and set_driver -/

/-- download_plugin never deletes an existing path other than the zip of
the plugin it handles. -/
theorem mem_fs_download (name : String) (fs : List String) (e : DlEnv)
    (x : String) (hx : x ∈ fs) (hxz : x ≠ name ++ ".zip") :
    x ∈ (download_plugin name fs e).2.1 := by
  unfold download_plugin
  cases hl : PLUGIN_URLS.lookup name with
  | none => simpa using hx
  | some url =>
    cases hnet : e.net with
    | errEarly => simpa using hx
    | errMid => simp [List.mem_append, hx]
    | ok =>
      cases hzg : e.zipGood with
      | false => simp [List.mem_append, hx]
      | true =>
        simp only [if_pos rfl]
        cases hcd : e.createsDir <;>
          simp [fsRemove, List.mem_filter, List.mem_append, hx, hxz]

/-- check_and_download_plugin never deletes an existing path other than
the zip of the plugin it handles. -/
theorem mem_fs_check (name : String) (fs : List String) (c : Bool) (e : DlEnv)
    (x : String) (hx : x ∈ fs) (hxz : x ≠ name ++ ".zip") :
    x ∈ (check_and_download_plugin name fs c e).2.1 := by
  unfold check_and_download_plugin
  split
  · simpa using hx
  · split
    · simpa using hx
    · split
      · simpa using mem_fs_download name fs e x hx hxz
      · simpa using hx

/-- Every effect check_and_download_plugin emits concerns its own
plugin. -/
theorem check_effects_tag (name : String) (fs : List String) (c : Bool)
    (e : DlEnv) :
    ∀ ev ∈ (check_and_download_plugin name fs c e).2.2, ev.tag = name := by
  intro ev hev
  unfold check_and_download_plugin at hev
  split at hev
  · simp at hev
  · split at hev
    · simp at hev
    · split at hev
      · simp only [List.mem_cons] at hev
        rcases hev with hev | hev
        · rw [hev]; rfl
        · unfold download_plugin at hev
          split at hev
          · simp at hev
          · split at hev <;>
              first
              | (simp at hev; rw [hev]; rfl)
              | (split at hev <;> (simp at hev; rw [hev]; rfl))
      · simp at hev
        rw [hev]
        rfl

/-- One plugin block only ever appends its own plugin name to the
extension list. -/
theorem loadPlugin_exts_mem (env : SysEnv) (flag : Bool) (name : String)
    (st : List String × List String × List Effect) (x : String)
    (hx : x ∈ (loadPlugin env flag name st).1) : x ∈ st.1 ∨ x = name := by
  unfold loadPlugin at hx
  split at hx
  · dsimp only at hx
    split at hx
    · rcases List.mem_append.mp hx with h | h
      · exact Or.inl h
      · exact Or.inr (List.mem_singleton.mp h)
    · exact Or.inl hx
  · exact Or.inl hx

/-- When the provisioner reports failure for a flagged plugin, the block
leaves the extension list unchanged. -/
theorem loadPlugin_exts_of_fail (env : SysEnv) (flag : Bool) (name : String)
    (st : List String × List String × List Effect)
    (h : (check_and_download_plugin name st.2.1 (env.consent name)
            (env.dl name)).1 = false) :
    (loadPlugin env flag name st).1 = st.1 := by
  unfold loadPlugin
  split
  · dsimp only
    simp [h]
  · rfl

/-- One plugin block never deletes an existing path other than its own
zip. -/
theorem loadPlugin_fs_mem (env : SysEnv) (flag : Bool) (name : String)
    (st : List String × List String × List Effect) (x : String)
    (hx : x ∈ st.2.1) (hxz : x ≠ name ++ ".zip") :
    x ∈ (loadPlugin env flag name st).2.1 := by
  unfold loadPlugin
  split
  · dsimp only
    exact mem_fs_check name st.2.1 (env.consent name) (env.dl name) x hx hxz
  · exact hx

/-- Every effect a plugin block appends to the trace concerns its own
plugin. -/
theorem loadPlugin_effects (env : SysEnv) (flag : Bool) (name : String)
    (st : List String × List String × List Effect) (ev : Effect)
    (hev : ev ∈ (loadPlugin env flag name st).2.2) :
    ev ∈ st.2.2 ∨ ev.tag = name := by
  unfold loadPlugin at hev
  split at hev
  · dsimp only at hev
    rcases List.mem_append.mp hev with h | h
    · exact Or.inl h
    · exact Or.inr (check_effects_tag name st.2.1 (env.consent name)
        (env.dl name) ev h)
  · exact Or.inl hev

/-- Membership in the final extension list after the gpt_rf step comes
from the three plugin blocks or is gpt_rf itself. -/
theorem mem_extFinal (c : Prop) [Decidable c] (l : List String) (x : String)
    (hx : x ∈ if c then l ++ ["gpt_rf"] else l) : x ∈ l ∨ x = "gpt_rf" := by
  split at hx
  · rcases List.mem_append.mp hx with h | h
    · exact Or.inl h
    · exact Or.inr (List.mem_singleton.mp h)
  · exact Or.inl hx

/-! ## C6 - C7, C9 - C10: the launch configurator -/

/-- C6: with no caller-supplied browser path and no candidate executable
present on the filesystem, set_driver raises FileNotFoundError and never
constructs a driver. -/
theorem set_driver_no_browser_raises (env : SysEnv) (headless : Bool)
    (ua px : String) (cf rf up : Bool)
    (hnone : resolveBrowserPath env "" = none) :
    set_driver env headless "" ua px cf rf up =
      Except.error "FileNotFoundError" := by
  unfold set_driver
  rw [hnone]

/-- Witness for C6 on a Linux host with an empty filesystem. -/
theorem set_driver_no_browser_raises_witness :
    set_driver ⟨false, false, [], fun _ => false,
        fun _ => ⟨NetRes.errEarly, false, false⟩⟩ false "" "" "" true true true =
      Except.error "FileNotFoundError" :=
  set_driver_no_browser_raises _ false "" "" true true true (by decide)

/-- C7: when a flagged plugin's provisioning fails, set_driver does not
raise: it still returns a driver and merely omits that extension from
the launch options. -/
theorem set_driver_skips_failed_plugin (env : SysEnv) (headless : Bool)
    (bp ua px : String) (cf rf up : Bool)
    (hbp : resolveBrowserPath env bp ≠ none) :
    ∃ r, set_driver env headless bp ua px cf rf up = Except.ok r ∧
      ((check_and_download_plugin "turnstilePatch" env.fs
          (env.consent "turnstilePatch") (env.dl "turnstilePatch")).1 = false →
        "turnstilePatch" ∉ r.1.extensions) ∧
      ((check_and_download_plugin "my-fingerprint-chrome"
          (loadPlugin env cf "turnstilePatch" ([], env.fs, [])).2.1
          (env.consent "my-fingerprint-chrome")
          (env.dl "my-fingerprint-chrome")).1 = false →
        "my-fingerprint-chrome" ∉ r.1.extensions) ∧
      ((check_and_download_plugin "cloudflare_ua_patch"
          (loadPlugin env rf "my-fingerprint-chrome"
            (loadPlugin env cf "turnstilePatch" ([], env.fs, []))).2.1
          (env.consent "cloudflare_ua_patch")
          (env.dl "cloudflare_ua_patch")).1 = false →
        "cloudflare_ua_patch" ∉ r.1.extensions) := by
  obtain ⟨p, hp⟩ := Option.ne_none_iff_exists'.mp hbp
  unfold set_driver
  rw [hp]
  dsimp only
  refine ⟨_, rfl, ?_, ?_, ?_⟩
  · intro h hmem
    have h1 := loadPlugin_exts_of_fail env cf "turnstilePatch"
      ([], env.fs, []) h
    rcases mem_extFinal _ _ _ hmem with hm | hm
    · rcases loadPlugin_exts_mem env up "cloudflare_ua_patch" _ _ hm with hm2 | hm2
      · rcases loadPlugin_exts_mem env rf "my-fingerprint-chrome" _ _ hm2 with hm3 | hm3
        · rw [h1] at hm3
          simp at hm3
        · exact absurd hm3 (by decide)
      · exact absurd hm2 (by decide)
    · exact absurd hm (by decide)
  · intro h hmem
    have h1 := loadPlugin_exts_of_fail env rf "my-fingerprint-chrome"
      (loadPlugin env cf "turnstilePatch" ([], env.fs, [])) h
    rcases mem_extFinal _ _ _ hmem with hm | hm
    · rcases loadPlugin_exts_mem env up "cloudflare_ua_patch" _ _ hm with hm2 | hm2
      · rw [h1] at hm2
        rcases loadPlugin_exts_mem env cf "turnstilePatch" _ _ hm2 with hm3 | hm3
        · simp at hm3
        · exact absurd hm3 (by decide)
      · exact absurd hm2 (by decide)
    · exact absurd hm (by decide)
  · intro h hmem
    have h1 := loadPlugin_exts_of_fail env up "cloudflare_ua_patch"
      (loadPlugin env rf "my-fingerprint-chrome"
        (loadPlugin env cf "turnstilePatch" ([], env.fs, []))) h
    rcases mem_extFinal _ _ _ hmem with hm | hm
    · rw [h1] at hm
      rcases loadPlugin_exts_mem env rf "my-fingerprint-chrome" _ _ hm with hm2 | hm2
      · rcases loadPlugin_exts_mem env cf "turnstilePatch" _ _ hm2 with hm3 | hm3
        · simp at hm3
        · exact absurd hm3 (by decide)
      · exact absurd hm2 (by decide)
    · exact absurd hm (by decide)

/-- Witness for C7: a declined download leaves turnstilePatch out of the
extensions while set_driver still returns a driver. -/
theorem set_driver_skips_failed_plugin_witness :
    ∃ r, set_driver sampleEnv false "" "" "" true true true = Except.ok r ∧
      "turnstilePatch" ∉ r.1.extensions := by
  obtain ⟨r, h1, h2, _, _⟩ := set_driver_skips_failed_plugin sampleEnv false
    "" "" "" true true true (by decide)
  exact ⟨r, h1, h2 (by decide)⟩

/-- C9: whenever a gpt_rf directory exists in the cwd, a successful
set_driver attaches it as an extension regardless of the three plugin
flags, and no provisioner effect (network request or consent prompt)
ever concerns gpt_rf. -/
theorem set_driver_gpt_rf_unconditional (env : SysEnv) (headless : Bool)
    (bp ua px : String) (cf rf up : Bool)
    (hbp : resolveBrowserPath env bp ≠ none) (hgpt : "gpt_rf" ∈ env.fs) :
    ∃ r, set_driver env headless bp ua px cf rf up = Except.ok r ∧
      "gpt_rf" ∈ r.1.extensions ∧
      ∀ ev ∈ r.2.2, Effect.tag ev ≠ "gpt_rf" := by
  obtain ⟨p, hp⟩ := Option.ne_none_iff_exists'.mp hbp
  unfold set_driver
  rw [hp]
  dsimp only
  refine ⟨_, rfl, ?_, ?_⟩
  · have h1 : "gpt_rf" ∈ (loadPlugin env cf "turnstilePatch"
        ([], env.fs, [])).2.1 :=
      loadPlugin_fs_mem env cf "turnstilePatch" ([], env.fs, []) "gpt_rf"
        hgpt (by decide)
    have h2 : "gpt_rf" ∈ (loadPlugin env rf "my-fingerprint-chrome"
        (loadPlugin env cf "turnstilePatch" ([], env.fs, []))).2.1 :=
      loadPlugin_fs_mem env rf "my-fingerprint-chrome" _ "gpt_rf" h1 (by decide)
    have h3 : "gpt_rf" ∈ (loadPlugin env up "cloudflare_ua_patch"
        (loadPlugin env rf "my-fingerprint-chrome"
          (loadPlugin env cf "turnstilePatch" ([], env.fs, [])))).2.1 :=
      loadPlugin_fs_mem env up "cloudflare_ua_patch" _ "gpt_rf" h2 (by decide)
    rw [if_pos h3]
    exact List.mem_append_right _ (List.mem_singleton.mpr rfl)
  · intro ev hev
    rcases loadPlugin_effects env up "cloudflare_ua_patch" _ ev hev with h | h
    · rcases loadPlugin_effects env rf "my-fingerprint-chrome" _ ev h with h2 | h2
      · rcases loadPlugin_effects env cf "turnstilePatch" _ ev h2 with h3 | h3
        · simp at h3
        · rw [h3]; decide
      · rw [h2]; decide
    · rw [h]; decide

/-- Witness for C9 with all plugin flags off and gpt_rf present. -/
theorem set_driver_gpt_rf_unconditional_witness :
    ∃ r, set_driver sampleEnvG false "" "" "" false false false = Except.ok r ∧
      "gpt_rf" ∈ r.1.extensions := by
  obtain ⟨r, h1, h2, _⟩ := set_driver_gpt_rf_unconditional sampleEnvG false
    "" "" "" false false false (by decide) (by decide)
  exact ⟨r, h1, h2⟩

/-- C10: with a falsy user_agent argument, the launch options always
carry the hardcoded Linux Chrome 131 user agent, on every platform; the
user agent is always set explicitly, never left to the driver default. -/
theorem set_driver_default_user_agent (env : SysEnv) (headless : Bool)
    (bp px : String) (cf rf up : Bool)
    (r : ChromiumOpts × List String × List Effect)
    (h : set_driver env headless bp "" px cf rf up = Except.ok r) :
    r.1.userAgent = some defaultUA := by
  unfold set_driver at h
  cases hp : resolveBrowserPath env bp with
  | none => rw [hp] at h; simp at h
  | some p =>
    rw [hp] at h
    dsimp only at h
    cases h
    simp

/-- Witness for C10 on the sample Linux environment. -/
theorem set_driver_default_user_agent_witness :
    ∃ r, set_driver sampleEnv false "" "" "" true true true = Except.ok r ∧
      r.1.userAgent = some defaultUA := by
  cases hr : set_driver sampleEnv false "" "" "" true true true with
  | error e =>
    have hok : (set_driver sampleEnv false "" "" "" true true true).isOk = true := by
      decide
    rw [hr] at hok
    simp [Except.isOk, Except.toBool] at hok
  | ok r =>
    exact ⟨r, rfl, set_driver_default_user_agent sampleEnv false "" ""
      true true true r hr⟩

/-! ## C8: the browser session facade -/

/-- C8: each facade interaction method yields True whenever it returns
normally (never False); when every attempt fails the method ends
exhausted with the driver's exception after its full retry budget (3 for
the plain methods, 5 for the action-chain ones); and an attempt given a
pre-resolved element performs no locator lookup and applies the action
to that element. -/
theorem facade_methods_contract {E ε : Type} (d : Driver E ε) (draw : Nat → ℚ)
    (sel txt : String) (el : E) :
    (∀ elOpt b, (click_with_retry d draw sel elOpt).2.2 = RetryOutcome.ok b →
       b = true) ∧
    (∀ elOpt b, (input_with_retry d draw sel txt elOpt).2.2 = RetryOutcome.ok b →
       b = true) ∧
    (∀ elOpt b, (actions_input_with_retry d draw sel txt elOpt).2.2 =
       RetryOutcome.ok b → b = true) ∧
    (∀ elOpt b, (actions_click_with_retry d draw sel elOpt).2.2 =
       RetryOutcome.ok b → b = true) ∧
    (∀ elOpt e, (click_body d sel elOpt).1 = Except.error e →
       (click_with_retry d draw sel elOpt).2.2 = RetryOutcome.exhausted e ∧
       (click_with_retry d draw sel elOpt).1 = 3) ∧
    (∀ elOpt e, (input_body d sel txt elOpt).1 = Except.error e →
       (input_with_retry d draw sel txt elOpt).2.2 = RetryOutcome.exhausted e ∧
       (input_with_retry d draw sel txt elOpt).1 = 3) ∧
    (∀ elOpt e, (actions_input_body d sel txt elOpt).1 = Except.error e →
       (actions_input_with_retry d draw sel txt elOpt).2.2 =
         RetryOutcome.exhausted e ∧
       (actions_input_with_retry d draw sel txt elOpt).1 = 5) ∧
    (∀ elOpt e, (actions_click_body d sel elOpt).1 = Except.error e →
       (actions_click_with_retry d draw sel elOpt).2.2 =
         RetryOutcome.exhausted e ∧
       (actions_click_with_retry d draw sel elOpt).1 = 5) ∧
    ((click_body d sel (some el)).2 = [DrEv.click el]) ∧
    ((input_body d sel txt (some el)).2 = [DrEv.clear el] ∨
       (input_body d sel txt (some el)).2 = [DrEv.clear el, DrEv.inputTo el txt]) ∧
    ((actions_input_body d sel txt (some el)).2 = [DrEv.aclick el] ∨
       (actions_input_body d sel txt (some el)).2 =
         [DrEv.aclick el, DrEv.ainput txt]) ∧
    ((actions_click_body d sel (some el)).2 = [DrEv.aclick el]) := by
  refine ⟨?_, ?_, ?_, ?_, ?_, ?_, ?_, ?_, ?_, ?_, ?_, ?_⟩
  · intro elOpt b h
    obtain ⟨k, hk⟩ := retry_ok_imp (facadeParams 3) _ draw b h
    exact click_body_ok d sel elOpt b hk
  · intro elOpt b h
    obtain ⟨k, hk⟩ := retry_ok_imp (facadeParams 3) _ draw b h
    exact input_body_ok d sel txt elOpt b hk
  · intro elOpt b h
    obtain ⟨k, hk⟩ := retry_ok_imp (facadeParams 5) _ draw b h
    exact actions_input_body_ok d sel txt elOpt b hk
  · intro elOpt b h
    obtain ⟨k, hk⟩ := retry_ok_imp (facadeParams 5) _ draw b h
    exact actions_click_body_ok d sel elOpt b hk
  · intro elOpt e h
    exact retry_const_error (facadeParams 3) _ e draw (by decide) h
  · intro elOpt e h
    exact retry_const_error (facadeParams 3) _ e draw (by decide) h
  · intro elOpt e h
    exact retry_const_error (facadeParams 5) _ e draw (by decide) h
  · intro elOpt e h
    exact retry_const_error (facadeParams 5) _ e draw (by decide) h
  · cases hc : d.clickRes el <;> simp [click_body, hc]
  · cases hc : d.clearRes el
    · left
      simp [input_body, hc]
    · right
      cases hi : d.inputRes el txt <;> simp [input_body, hc, hi]
  · cases hc : d.actClickRes el
    · left
      simp [actions_input_body, hc]
    · right
      cases hi : d.actInputRes txt <;> simp [actions_input_body, hc, hi]
  · cases hc : d.actClickRes el <;> simp [actions_click_body, hc]

/-- Witness for C8: with a driver whose lookup always raises, the click
method exhausts its 3 attempts and re-raises that exception, and a click
attempt on a pre-resolved element touches only that element. -/
theorem facade_methods_contract_witness :
    (click_with_retry sampleDriver (fun _ => 0) "sel" none).2.2 =
      RetryOutcome.exhausted "no element" ∧
    (click_with_retry sampleDriver (fun _ => 0) "sel" none).1 = 3 ∧
    (click_body sampleDriver "sel" (some 7)).2 = [DrEv.click 7] := by
  have h := facade_methods_contract sampleDriver (fun _ => 0) "sel" "txt" 7
  have hex := h.2.2.2.2.1 none "no element" rfl
  exact ⟨hex.1, hex.2, h.2.2.2.2.2.2.2.2.1⟩

end DpConfig
